import Mathlib

/-!
Shallow embedding of the `dataloader` Go package (data-loader repository):
schema parsing (`marshalTableSchema`), DDL generation (`buildCreateTableQuery`),
bulk-copy statement generation (`buildCopyFromS3Query`) and the load
orchestrator (`LoadDataFileToRedshift`), together with theorems checking the
natural-language specification against this embedding.
-/

namespace DataLoaderSpec

/-- One column of a destination table, as decoded from the schema CSV.
Mirrors Go `dBColumnSchema` with fields `Name`, `Width`, `DataType`
(all strings; the width stays textual until `strconv.Atoi` is applied). -/
structure dBColumnSchema where
  Name : String
  Width : String
  DataType : String
  deriving Repr, DecidableEq

/-- The configuration fields of the Go `DataLoader` struct that the pure
query-building logic reads (`Env`, `DataBucket`, `SchemaBucket`).  The
database handle, logger and S3 client are modelled as the environment of
the orchestrator, not as data. -/
structure DataLoader where
  Env : String
  DataBucket : String
  SchemaBucket : String
  deriving Repr, DecidableEq

/-- Errors returned by the embedded code.  The Go code returns `error`
values built with `fmt.Errorf` (or passed through from collaborators);
each constructor corresponds to one `fmt.Errorf` site or error source,
carrying the data interpolated into the Go message. -/
inductive GoError where
  /-- `fmt.Errorf("invalid number of columns defined in expectedSchema: %d", n)` -/
  | invalidSchema (count : Nat)
  /-- `fmt.Errorf("duplicate column name passed in expectedSchema: %s", name)` -/
  | duplicateColumn (name : String)
  /-- `fmt.Errorf("unknown data type passed %s", t)` -/
  | unsupportedType (t : String)
  /-- `fmt.Errorf("passed column width %s is larger then TEXT field allows", w)` -/
  | widthExceeded (width : String)
  /-- `strconv.Atoi` invalid-input error on the given input string -/
  | atoiInvalid (s : String)
  /-- `strconv.Atoi` range error on the given input string -/
  | atoiRange (s : String)
  /-- `encoding/csv` parse error (inconsistent field count, at the given record) -/
  | csvFieldCount (record : Nat)
  /-- passthrough error from a collaborator (S3, database driver) -/
  | external (tag : String)
  deriving Repr, DecidableEq

instance {ε α : Type} [DecidableEq ε] [DecidableEq α] :
    DecidableEq (Except ε α) := fun x y =>
  match x, y with
  | .ok a, .ok b =>
    if h : a = b then isTrue (by rw [h]) else isFalse (by simp [h])
  | .ok _, .error _ => isFalse (by simp)
  | .error _, .ok _ => isFalse (by simp)
  | .error e, .error f =>
    if h : e = f then isTrue (by rw [h]) else isFalse (by simp [h])

/-- The message text carried by each error, exactly as the Go `fmt.Errorf`
format strings produce it (collaborator errors keep their own text). -/
def GoError.message : GoError → String
  | .invalidSchema n => "invalid number of columns defined in expectedSchema: " ++ toString n
  | .duplicateColumn name => "duplicate column name passed in expectedSchema: " ++ name
  | .unsupportedType t => "unknown data type passed " ++ t
  | .widthExceeded w => "passed column width " ++ w ++ " is larger then TEXT field allows"
  | .atoiInvalid s => "strconv.Atoi: parsing \x22" ++ s ++ "\x22: invalid syntax"
  | .atoiRange s => "strconv.Atoi: parsing \x22" ++ s ++ "\x22: value out of range"
  | .csvFieldCount r => "record on line " ++ toString r ++ ": wrong number of fields"
  | .external tag => tag

/-- Digit accumulator for `go_Atoi`: the numeric value of a digit list. -/
def digitsVal (ds : List Char) : Nat :=
  ds.foldl (fun a c => a * 10 + (c.toNat - 48)) 0

/-- Go `strconv.Atoi` on a 64-bit platform (the repository builds with
`GOARCH=amd64`): optional single `+`/`-` sign, then one or more decimal
digits; syntax error otherwise; range error when the value does not fit a
signed 64-bit integer. -/
def go_Atoi (s : String) : Except GoError Int :=
  let cs := s.data
  let signDigits : Bool × List Char :=
    match cs with
    | '-' :: rest => (true, rest)
    | '+' :: rest => (false, rest)
    | _ => (false, cs)
  let neg := signDigits.1
  let ds := signDigits.2
  if ds.isEmpty || !(ds.all Char.isDigit) then
    .error (.atoiInvalid s)
  else
    let v : Int := if neg then -(digitsVal ds : Int) else (digitsVal ds : Int)
    if v < -(2 ^ 63) || v > 2 ^ 63 - 1 then .error (.atoiRange s)
    else .ok v

/-- The `switch colProps.DataType` body of `buildCreateTableQuery`: renders
the SQL type for one column, validating TEXT widths via `strconv.Atoi`
and the 256 upper bound; `INTEGER` and `BOOLEAN` render verbatim; any
other type is rejected. -/
def renderDataType (colProps : dBColumnSchema) : Except GoError String :=
  match colProps.DataType with
  | "TEXT" =>
    match go_Atoi colProps.Width with
    | .error e => .error e
    | .ok textWidth =>
      if !(textWidth ≤ 256) then .error (.widthExceeded colProps.Width)
      else .ok ("VARCHAR(" ++ colProps.Width ++ ")")
  | "INTEGER" => .ok "INTEGER"
  | "BOOLEAN" => .ok "BOOLEAN"
  | other => .error (.unsupportedType other)

/-- The `for _, colProps := range dbColumns` loop of `buildCreateTableQuery`:
`seen` is the duplicate-detection set, `sb` the string builder contents,
`pre` the separator prefix (`""` before the first column, `","` after). -/
def buildCreateTableLoop :
    List dBColumnSchema → List String → String → String → Except GoError String
  | [], _, sb, _ => .ok (sb ++ ");")
  | colProps :: rest, seen, sb, pre =>
    if colProps.Name ∈ seen then
      .error (.duplicateColumn colProps.Name)
    else
      match renderDataType colProps with
      | .error e => .error e
      | .ok renderedDataType =>
        buildCreateTableLoop rest (colProps.Name :: seen)
          (sb ++ pre ++ " " ++ colProps.Name ++ " " ++ renderedDataType) ","

/-- Go `(*DataLoader).buildCreateTableQuery`: validates the column count,
then walks the columns in order (duplicate-name check, type/width check)
while accumulating the `CREATE TABLE` statement. -/
def buildCreateTableQuery (tableName : String) (dbColumns : List dBColumnSchema) :
    Except GoError String :=
  let numOfCol := dbColumns.length
  if numOfCol = 0 || numOfCol > 1600 then
    .error (.invalidSchema numOfCol)
  else
    buildCreateTableLoop dbColumns [] ("CREATE TABLE " ++ tableName ++ "(") ""

/-- The `for _, colProps := range schema` loop of `buildCopyFromS3Query`:
appends `name:width` pairs, comma-space separated. -/
def buildFixedWidthLoop : List dBColumnSchema → String → String → String
  | [], sb, _ => sb
  | colProps :: rest, sb, pre =>
    buildFixedWidthLoop rest (sb ++ pre ++ colProps.Name ++ ":" ++ colProps.Width) ", "

/-- Go `(*DataLoader).buildCopyFromS3Query`: renders the Redshift `COPY`
statement with the hard-coded account id `653026974230`, the
environment-qualified role name, and the FIXEDWIDTH column spec. -/
def DataLoader.buildCopyFromS3Query (d : DataLoader) (schema : List dBColumnSchema)
    (tableName copyTarget : String) : String :=
  let head := "COPY " ++ tableName ++ " FROM 's3://" ++ d.DataBucket ++ "/" ++ copyTarget ++
    "' IAM_ROLE 'arn:aws:iam::" ++ "653026974230" ++ ":role/" ++
    ("data-loader-redshift-copy-" ++ d.Env ++ "-us-west-2") ++ "' FIXEDWIDTH '"
  buildFixedWidthLoop schema head "" ++ "';"

/-- Splitting a character list at every occurrence of `sep`; `acc` holds
the current field reversed.  Always returns at least one (possibly
empty) field, like Go `strings.Split` with a one-character separator. -/
def splitOnCharAux (sep : Char) : List Char → List Char → List (List Char)
  | [], acc => [acc.reverse]
  | c :: cs, acc =>
    if c = sep then acc.reverse :: splitOnCharAux sep cs []
    else splitOnCharAux sep cs (c :: acc)

/-- Go `strings.Split(s, sep)` for a one-character separator (the only
form this code uses: `_`, `\n`, `,`). -/
def splitOnChar (sep : Char) (s : String) : List String :=
  (splitOnCharAux sep s.data []).map (fun cs => ⟨cs⟩)

/-- Strip one trailing carriage return from a line, as Go `encoding/csv`
does for `\r\n` line endings. -/
def stripCR (l : String) : String :=
  match l.data.getLast? with
  | some '\r' => ⟨l.data.dropLast⟩
  | _ => l

/-- Index of the first record whose field count differs from the first
record's (1-based position among the kept records), if any. -/
def firstFieldCountMismatch (rows : List (List String)) : Option Nat :=
  match rows with
  | [] => none
  | r0 :: rest =>
    let bad := (rest.enumFrom 2).filter (fun p => p.2.length ≠ r0.length)
    match bad with
    | [] => none
    | (i, _) :: _ => some i

/-- Go `csv.NewReader(r).ReadAll()` restricted to inputs containing no
quote character (the schema CSVs this loader consumes): records are
newline-separated lines (`\r\n` accepted), blank lines are skipped,
fields are comma-separated, and — with the default `FieldsPerRecord` —
every record must have as many fields as the first or the reader fails
with an `ErrFieldCount` parse error. -/
def csvReadAll (s : String) : Except GoError (List (List String)) :=
  let recs := ((splitOnChar '\n' s).map stripCR).filter (fun l => l ≠ "")
  let rows := recs.map (fun l => splitOnChar ',' l)
  match firstFieldCountMismatch rows with
  | some i => .error (.csvFieldCount i)
  | none => .ok rows

/-- The body of the `for i, line := range lines` loop of
`marshalTableSchema`: accesses `line[0]`, `line[1]`, `line[2]`.  In Go an
out-of-range access is a runtime panic, modelled here as `none`. -/
def marshalRow (line : List String) : Option dBColumnSchema := do
  let n ← line.get? 0
  let w ← line.get? 1
  let t ← line.get? 2
  pure ⟨n, w, t⟩

/-- Go `marshalTableSchema`: parses the raw schema bytes with
`encoding/csv`, skips the header row (`i == 0`), and maps each remaining
row to a `dBColumnSchema` from its first three fields.  The outer `Option`
is `none` when the Go code panics (index out of range on a short row);
`some` carries the Go return value (column list or error). -/
def marshalTableSchema (rawSchema : String) :
    Option (Except GoError (List dBColumnSchema)) :=
  match csvReadAll rawSchema with
  | .error e => some (.error e)
  | .ok lines =>
    match (lines.drop 1).mapM marshalRow with
    | none => none
    | some dbColumns => some (.ok dbColumns)

/-! Load orchestrator.

The orchestrator's collaborators (S3 read, existence probe, statement
execution) are modelled as an environment fixing each call's outcome; a
run returns the Go return value (`none` for a propagated panic) together
with the trace of collaborator calls, in order. -/

/-- Outcomes of the collaborator calls `LoadDataFileToRedshift` makes:
the S3 schema fetch, the `INFORMATION_SCHEMA` existence probe
(`QueryContext` + `rows.Next()` folded into one result), and
`DB.ExecContext` keyed by the executed SQL text. -/
structure DBEnv where
  fetchSchemaResult : Except GoError String
  tableExistsResult : Except GoError Bool
  execResult : String → Except GoError Unit

/-- One observable collaborator call made during a run. -/
inductive DBEvent where
  /-- `S3Svc.GetObjectWithContext` on the schema bucket and key -/
  | fetchSchema (bucket key : String)
  /-- the table-existence probe query for the given table name -/
  | existsQuery (table : String)
  /-- `DB.ExecContext` of the given SQL statement -/
  | exec (sql : String)
  deriving Repr, DecidableEq

/-- The target-table-name derivation `strings.Split(fileName, "_")[0]` of
`LoadDataFileToRedshift` (Go `strings.Split` always returns at least one
element, so the index is safe). -/
def targetNameOf (fileName : String) : String :=
  (splitOnChar '_' fileName).headD ""

/-- Go `(*DataLoader).fetchTableSchema`: fetches `<targetName>.csv` from
the schema bucket. -/
def fetchTableSchema (env : DBEnv) (d : DataLoader) (targetName : String) :
    Except GoError String × List DBEvent :=
  (env.fetchSchemaResult, [.fetchSchema d.SchemaBucket (targetName ++ ".csv")])

/-- Go `(*DataLoader).checkIfRedShiftTableExists`: runs the existence
probe query; an error from `QueryContext` propagates, otherwise
`rows.Next()` decides the boolean. -/
def checkIfRedShiftTableExists (env : DBEnv) (tableName : String) :
    Except GoError Bool × List DBEvent :=
  (env.tableExistsResult, [.existsQuery tableName])

/-- Go `(*DataLoader).createTable`: builds the `CREATE TABLE` statement
(returning its error without touching the database when the build fails)
and executes it. -/
def createTable (env : DBEnv) (tableName : String) (schema : List dBColumnSchema) :
    Except GoError Unit × List DBEvent :=
  match buildCreateTableQuery tableName schema with
  | .error e => (.error e, [])
  | .ok createTableQuery => (env.execResult createTableQuery, [.exec createTableQuery])

/-- Go `(*DataLoader).executeRedShiftCopyCommand`: builds the `COPY`
statement and executes it, returning the execution result. -/
def executeRedShiftCopyCommand (env : DBEnv) (d : DataLoader)
    (schema : List dBColumnSchema) (tableName copyTarget : String) :
    Except GoError Unit × List DBEvent :=
  let q := d.buildCopyFromS3Query schema tableName copyTarget
  (env.execResult q, [.exec q])

/-- Go `(*DataLoader).LoadDataFileToRedshift`: derives the target table
name from the file name (prefix before the first `_`), fetches and parses
the schema, probes for the table, creates it only when absent, then runs
the copy command.  Every error returns immediately; the result is `none`
when a modelled panic propagates out of schema parsing. -/
def LoadDataFileToRedshift (env : DBEnv) (d : DataLoader) (fileName : String) :
    Option (Except GoError Unit) × List DBEvent :=
  let targetName := targetNameOf fileName
  let fetched := fetchTableSchema env d targetName
  match fetched.1 with
  | .error e => (some (.error e), fetched.2)
  | .ok rawSchema =>
    match marshalTableSchema rawSchema with
    | none => (none, fetched.2)
    | some (.error e) => (some (.error e), fetched.2)
    | some (.ok schema) =>
      let probed := checkIfRedShiftTableExists env targetName
      let t2 := fetched.2 ++ probed.2
      match probed.1 with
      | .error e => (some (.error e), t2)
      | .ok redShiftTableExists =>
        if !redShiftTableExists then
          let created := createTable env targetName schema
          match created.1 with
          | .error e => (some (.error e), t2 ++ created.2)
          | .ok _ =>
            let copied := executeRedShiftCopyCommand env d schema targetName fileName
            (some copied.1, t2 ++ created.2 ++ copied.2)
        else
          let copied := executeRedShiftCopyCommand env d schema targetName fileName
          (some copied.1, t2 ++ copied.2)

/-! Spec-side rendering helpers, used to state the claims about the
generated statements, and the lemmas connecting them to the
string-builder loops of the embedding. -/

/-- Join a list of strings with the given separator between consecutive
elements (no leading or trailing separator). -/
def sepJoin (sep : String) : List String → String
  | [] => ""
  | [x] => x
  | x :: y :: xs => x ++ sep ++ sepJoin sep (y :: xs)

/-- What the `sb.WriteString(prefix)`-style loops produce: every element
is preceded by `pre` for the first and by `sep` afterwards. -/
def joinPre (sep pre : String) : List String → String
  | [] => ""
  | x :: xs => pre ++ x ++ joinPre sep sep xs

/-- The SQL type the DDL builder renders for a valid column:
`VARCHAR(<Width>)` for TEXT, the type name itself for the others. -/
def clauseType (c : dBColumnSchema) : String :=
  if c.DataType = "TEXT" then "VARCHAR(" ++ c.Width ++ ")" else c.DataType

/-- One column clause of the generated `CREATE TABLE` statement: a single
space, the column name verbatim, a space, the rendered type. -/
def colClause (c : dBColumnSchema) : String :=
  " " ++ c.Name ++ " " ++ clauseType c

/-- A column the validator accepts: a supported `DataType`, and for TEXT a
`Width` that `strconv.Atoi` parses to an integer at most 256. -/
def ValidColumn (c : dBColumnSchema) : Prop :=
  (c.DataType = "TEXT" ∧ ∃ v : Int, go_Atoi c.Width = .ok v ∧ v ≤ 256) ∨
    c.DataType = "INTEGER" ∨ c.DataType = "BOOLEAN"

/-- The column a well-formed three-field CSV row describes: fields one,
two, three become `Name`, `Width`, `DataType`. -/
def mkCol (line : List String) : dBColumnSchema :=
  ⟨line.getD 0 "", line.getD 1 "", line.getD 2 ""⟩

/-! Concrete fixtures, mirroring the repository's unit tests and local
test event, used to witness the universally quantified theorems. -/

/-- Schema fixture of the repository's unit tests: four columns covering
all three supported data types. -/
def testSchema : List dBColumnSchema :=
  [⟨"testCol1", "4", "TEXT"⟩, ⟨"testCol2", "42", "TEXT"⟩,
   ⟨"testCol3", "8", "BOOLEAN"⟩, ⟨"testCol4", "4", "INTEGER"⟩]

/-- Schema CSV fixture: the documented header row followed by the three
rows of the spec's parsing example. -/
def testCSV : String :=
  "column name,width,datatype\nname,10,TEXT\nvalid,1,BOOLEAN\ncount,3,INTEGER\n"

/-- The columns `testCSV` parses to. -/
def testCols : List dBColumnSchema :=
  [⟨"name", "10", "TEXT"⟩, ⟨"valid", "1", "BOOLEAN"⟩, ⟨"count", "3", "INTEGER"⟩]

/-- A schema CSV whose single body row carries an unsupported data type. -/
def badTypeCSV : String := "column name,width,datatype\nname,10,BAD_TYPE\n"

/-- `DataLoader` configuration fixture. -/
def dTest : DataLoader := ⟨"test", "testDB", "testSB"⟩

/-- An executor that accepts every statement. -/
def okExec : String → Except GoError Unit := fun _ => .ok ()

/-- An executor that rejects exactly the `COPY` statements. -/
def copyOnlyFails : String → Except GoError Unit := fun s =>
  match s.data with
  | 'C' :: 'O' :: 'P' :: 'Y' :: _ => .error (.external "copy failure")
  | _ => .ok ()

/-- Environment: the table already exists and every call succeeds. -/
def envTableExists : DBEnv := ⟨.ok testCSV, .ok true, okExec⟩

/-- Environment: the table is absent and every call succeeds. -/
def envTableAbsent : DBEnv := ⟨.ok testCSV, .ok false, okExec⟩

/-- Environment: the schema fetch fails. -/
def envFetchFails : DBEnv := ⟨.error (.external "storage failure"), .ok true, okExec⟩

/-- Environment: the fetched schema CSV has inconsistent field counts. -/
def envBadSchema : DBEnv := ⟨.ok "h1,h2\na,b,c\n", .ok true, okExec⟩

/-- Environment: the existence probe fails. -/
def envProbeFails : DBEnv := ⟨.ok testCSV, .error (.external "query failure"), okExec⟩

/-- Environment: the fetched schema has an unsupported type, table absent. -/
def envBadType : DBEnv := ⟨.ok badTypeCSV, .ok false, okExec⟩

/-- Environment: table absent, every statement execution fails. -/
def envExecFails : DBEnv :=
  ⟨.ok testCSV, .ok false, fun _ => .error (.external "exec failure")⟩

/-- Environment: table already exists, the copy execution fails. -/
def envCopyFailsPresent : DBEnv := ⟨.ok testCSV, .ok true, copyOnlyFails⟩

/-- Environment: table absent, create succeeds, the copy execution fails. -/
def envCopyFailsAbsent : DBEnv := ⟨.ok testCSV, .ok false, copyOnlyFails⟩

lemma joinPre_eq_sepJoin (sep : String) :
    ∀ (l : List String) (pre : String),
      joinPre sep pre l = if l = [] then "" else pre ++ sepJoin sep l := by
  intro l
  induction l with
  | nil => intro pre; simp [joinPre]
  | cons x xs ih =>
    intro pre
    simp only [joinPre, ih sep]
    cases xs with
    | nil => simp [sepJoin]
    | cons y ys => simp [sepJoin, String.append_assoc]

lemma renderDataType_valid (c : dBColumnSchema) (h : ValidColumn c) :
    renderDataType c = .ok (clauseType c) := by
  rcases h with ⟨htext, v, hatoi, hle⟩ | hint | hbool
  · simp [renderDataType, clauseType, htext, hatoi, hle]
  · simp [renderDataType, clauseType, hint]
  · simp [renderDataType, clauseType, hbool]

lemma buildCreateTableLoop_valid :
    ∀ (cols : List dBColumnSchema) (seen : List String) (sb pre : String),
      (∀ c ∈ cols, ValidColumn c) →
      (cols.map dBColumnSchema.Name).Nodup →
      (∀ c ∈ cols, c.Name ∉ seen) →
      buildCreateTableLoop cols seen sb pre =
        .ok (sb ++ joinPre "," pre (cols.map colClause) ++ ");") := by
  intro cols
  induction cols with
  | nil => intro seen sb pre _ _ _; simp [buildCreateTableLoop, joinPre]
  | cons c rest ih =>
    intro seen sb pre hvalid hnodup hseen
    have hcseen : c.Name ∉ seen := hseen c (List.mem_cons_self ..)
    have hcvalid : ValidColumn c := hvalid c (List.mem_cons_self ..)
    simp only [List.map_cons, List.nodup_cons] at hnodup
    rw [buildCreateTableLoop, if_neg hcseen, renderDataType_valid c hcvalid]
    show buildCreateTableLoop rest (c.Name :: seen)
      (sb ++ pre ++ " " ++ c.Name ++ " " ++ clauseType c) "," = _
    rw [ih (c.Name :: seen) _ ","
      (fun x hx => hvalid x (List.mem_cons_of_mem _ hx))
      hnodup.2
      (fun x hx => by
        simp only [List.mem_cons]
        push_neg
        exact ⟨fun hEq => hnodup.1 (hEq ▸ List.mem_map_of_mem _ hx),
          hseen x (List.mem_cons_of_mem _ hx)⟩)]
    simp [joinPre, colClause, String.append_assoc]

lemma buildCreateTableLoop_dup :
    ∀ (xs : List dBColumnSchema) (c : dBColumnSchema) (ys : List dBColumnSchema)
      (seen : List String) (sb pre : String),
      (∀ x ∈ xs, ValidColumn x) →
      (xs.map dBColumnSchema.Name).Nodup →
      (∀ x ∈ xs, x.Name ∉ seen) →
      (c.Name ∈ seen ∨ c.Name ∈ xs.map dBColumnSchema.Name) →
      buildCreateTableLoop (xs ++ c :: ys) seen sb pre =
        .error (.duplicateColumn c.Name) := by
  intro xs
  induction xs with
  | nil =>
    intro c ys seen sb pre _ _ _ hmem
    rcases hmem with hmem | hmem
    · simp [buildCreateTableLoop, hmem]
    · simp only [List.map_nil] at hmem
      exact absurd hmem (List.not_mem_nil _)
  | cons x rest ih =>
    intro c ys seen sb pre hvalid hnodup hseen hmem
    have hxseen : x.Name ∉ seen := hseen x (List.mem_cons_self ..)
    have hxvalid : ValidColumn x := hvalid x (List.mem_cons_self ..)
    simp only [List.map_cons, List.nodup_cons] at hnodup
    rw [List.cons_append, buildCreateTableLoop, if_neg hxseen,
      renderDataType_valid x hxvalid]
    show buildCreateTableLoop (rest ++ c :: ys) (x.Name :: seen)
      (sb ++ pre ++ " " ++ x.Name ++ " " ++ clauseType x) "," = _
    refine ih c ys (x.Name :: seen) _ ","
      (fun z hz => hvalid z (List.mem_cons_of_mem _ hz))
      hnodup.2
      (fun z hz => by
        simp only [List.mem_cons]
        push_neg
        exact ⟨fun hEq => hnodup.1 (hEq ▸ List.mem_map_of_mem _ hz),
          hseen z (List.mem_cons_of_mem _ hz)⟩)
      ?_
    rcases hmem with hmem | hmem
    · exact Or.inl (List.mem_cons_of_mem _ hmem)
    · simp only [List.map_cons, List.mem_cons] at hmem
      rcases hmem with hmem | hmem
      · exact Or.inl (hmem ▸ List.mem_cons_self ..)
      · exact Or.inr hmem

lemma buildCreateTableLoop_render_error :
    ∀ (xs : List dBColumnSchema) (c : dBColumnSchema) (ys : List dBColumnSchema)
      (seen : List String) (sb pre : String) (e : GoError),
      (∀ x ∈ xs, ValidColumn x) →
      (xs.map dBColumnSchema.Name).Nodup →
      (∀ x ∈ xs, x.Name ∉ seen) →
      c.Name ∉ seen → c.Name ∉ xs.map dBColumnSchema.Name →
      renderDataType c = .error e →
      buildCreateTableLoop (xs ++ c :: ys) seen sb pre = .error e := by
  intro xs
  induction xs with
  | nil =>
    intro c ys seen sb pre e _ _ _ hcseen _ hrender
    simp [buildCreateTableLoop, hcseen, hrender]
  | cons x rest ih =>
    intro c ys seen sb pre e hvalid hnodup hseen hcseen hcxs hrender
    have hxseen : x.Name ∉ seen := hseen x (List.mem_cons_self ..)
    have hxvalid : ValidColumn x := hvalid x (List.mem_cons_self ..)
    simp only [List.map_cons, List.nodup_cons] at hnodup
    simp only [List.map_cons, List.mem_cons] at hcxs
    push_neg at hcxs
    rw [List.cons_append, buildCreateTableLoop, if_neg hxseen,
      renderDataType_valid x hxvalid]
    show buildCreateTableLoop (rest ++ c :: ys) (x.Name :: seen)
      (sb ++ pre ++ " " ++ x.Name ++ " " ++ clauseType x) "," = _
    exact ih c ys (x.Name :: seen) _ "," e
      (fun z hz => hvalid z (List.mem_cons_of_mem _ hz))
      hnodup.2
      (fun z hz => by
        simp only [List.mem_cons]
        push_neg
        exact ⟨fun hEq => hnodup.1 (hEq ▸ List.mem_map_of_mem _ hz),
          hseen z (List.mem_cons_of_mem _ hz)⟩)
      (by simp only [List.mem_cons]; push_neg; exact ⟨hcxs.1, hcseen⟩)
      hcxs.2
      hrender

/-- `go_Atoi` only ever fails with one of its two own error shapes. -/
lemma go_Atoi_error_shape (s : String) (e : GoError) (h : go_Atoi s = .error e) :
    e = .atoiInvalid s ∨ e = .atoiRange s := by
  dsimp only [go_Atoi] at h
  repeat' split at h
  all_goals first
    | exact Or.inl (Except.error.inj h).symm
    | exact Or.inr (Except.error.inj h).symm
    | exact absurd h (by simp)

lemma buildFixedWidthLoop_eq :
    ∀ (schema : List dBColumnSchema) (sb pre : String),
      buildFixedWidthLoop schema sb pre =
        sb ++ joinPre ", " pre (schema.map fun c => c.Name ++ ":" ++ c.Width) := by
  intro schema
  induction schema with
  | nil => intro sb pre; simp [buildFixedWidthLoop, joinPre]
  | cons c rest ih =>
    intro sb pre
    rw [buildFixedWidthLoop, ih]
    simp [joinPre, String.append_assoc]

lemma marshalRow_length_three (l : List String) (h : l.length = 3) :
    marshalRow l = some (mkCol l) := by
  obtain ⟨a, b, c, rfl⟩ := List.length_eq_three.mp h
  rfl

lemma mapM_marshalRow (ls : List (List String)) (h : ∀ l ∈ ls, l.length = 3) :
    ls.mapM marshalRow = some (ls.map mkCol) := by
  induction ls with
  | nil => rfl
  | cons l ls ih =>
    rw [List.mapM_cons, marshalRow_length_three l (h l (List.mem_cons_self ..)),
      ih (fun x hx => h x (List.mem_cons_of_mem _ hx))]
    rfl

/-- C1: for every schema of 1 to 1600 columns with pairwise-distinct
names, every `DataType` among TEXT/INTEGER/BOOLEAN, and every TEXT
column's `Width` parsing to an integer at most 256,
`buildCreateTableQuery` succeeds and returns exactly
`CREATE TABLE <tableName>(` followed by the column clauses in schema
order — each a single space, the name verbatim, a space, then
`VARCHAR(<Width>)` for TEXT or the literal type name otherwise —
comma-separated with no trailing comma and closed by `);`. -/
theorem buildCreateTable_valid_schema_renders
    (tableName : String) (schema : List dBColumnSchema)
    (hlen1 : 1 ≤ schema.length) (hlen2 : schema.length ≤ 1600)
    (hnodup : (schema.map dBColumnSchema.Name).Nodup)
    (hvalid : ∀ c ∈ schema, ValidColumn c) :
    buildCreateTableQuery tableName schema =
      .ok ("CREATE TABLE " ++ tableName ++ "(" ++
        sepJoin "," (schema.map colClause) ++ ");") := by
  have hcond : (decide (schema.length = 0) || decide (schema.length > 1600)) = false := by
    simp only [Bool.or_eq_false_iff, decide_eq_false_iff_not]
    omega
  rw [buildCreateTableQuery]
  show (if (schema.length = 0 || schema.length > 1600) = true then _ else _) = _
  rw [if_neg (by simp_all)]
  rw [buildCreateTableLoop_valid schema [] _ "" hvalid hnodup
    (fun c _ => List.not_mem_nil _)]
  rw [joinPre_eq_sepJoin]
  have hne : schema.map colClause ≠ [] := by
    intro h
    have hlen : schema.length = 0 := by
      have := congrArg List.length h
      simpa using this
    omega
  rw [if_neg hne]
  simp [String.append_assoc]

/-- Witness for C1 at the test-suite schema and table name. -/
theorem buildCreateTable_valid_schema_renders_witness :
    buildCreateTableQuery "testTable" testSchema =
      .ok "CREATE TABLE testTable( testCol1 VARCHAR(4), testCol2 VARCHAR(42), testCol3 BOOLEAN, testCol4 INTEGER);" := by
  rw [buildCreateTable_valid_schema_renders "testTable" testSchema
    (by decide) (by decide) (by decide)
    (by
      intro c hc
      simp only [testSchema, List.mem_cons, List.not_mem_nil, or_false] at hc
      rcases hc with rfl | rfl | rfl | rfl
      · exact Or.inl ⟨rfl, 4, rfl, by decide⟩
      · exact Or.inl ⟨rfl, 42, rfl, by decide⟩
      · exact Or.inr (Or.inr rfl)
      · exact Or.inr (Or.inl rfl))]
  rfl

/-- `renderDataType` only ever fails with an unsupported-type,
width-exceeded, or `strconv.Atoi` error for the very column it checked. -/
lemma renderDataType_error_shape (c : dBColumnSchema) (e : GoError)
    (h : renderDataType c = .error e) :
    e = .unsupportedType c.DataType ∨ e = .widthExceeded c.Width ∨
      e = .atoiInvalid c.Width ∨ e = .atoiRange c.Width := by
  unfold renderDataType at h
  split at h
  · split at h
    · rename_i e' heq
      have he : e = e' := (Except.error.inj h).symm
      subst he
      rcases go_Atoi_error_shape c.Width e heq with h1 | h1
      · exact Or.inr (Or.inr (Or.inl h1))
      · exact Or.inr (Or.inr (Or.inr h1))
    · split at h
      · exact Or.inr (Or.inl (Except.error.inj h).symm)
      · exact absurd h (by simp)
  · exact absurd h (by simp)
  · exact absurd h (by simp)
  · rename_i other hne1 hne2 hne3
    exact Or.inl (Except.error.inj h).symm

/-- The column loop of `buildCreateTableQuery` never produces the
invalid-column-count error: that error can only come from the length
guard that runs before the loop. -/
lemma buildCreateTableLoop_no_invalidSchema :
    ∀ (cols : List dBColumnSchema) (seen : List String) (sb pre : String) (k : Nat),
      buildCreateTableLoop cols seen sb pre = .error (.invalidSchema k) → False := by
  intro cols
  induction cols with
  | nil => intro seen sb pre k h; simp [buildCreateTableLoop] at h
  | cons c rest ih =>
    intro seen sb pre k h
    rw [buildCreateTableLoop] at h
    split at h
    · exact GoError.noConfusion (Except.error.inj h)
    · split at h
      · rename_i e heq
        rcases renderDataType_error_shape c e heq with h1 | h1 | h1 | h1 <;>
          (subst h1; exact GoError.noConfusion (Except.error.inj h))
      · exact ih _ _ _ k h

/-- C2: `buildCopyFromS3Query` is a pure total function with no error
path: for every schema (validated or not) it returns exactly
`COPY <tableName> FROM 's3://<data-bucket>/<sourceObjectKey>' IAM_ROLE
'<arn from the fixed account id 653026974230 and the
environment-qualified role name>' FIXEDWIDTH '<name:width pairs in
schema order, comma-space separated>';`, and on the test-suite schema
with table `testtable`, source `testtarget` and bucket `testDB` the
FIXEDWIDTH clause is `testCol1:4, testCol2:42, testCol3:8, testCol4:4`. -/
theorem buildCopyStatement_exact :
    (∀ (d : DataLoader) (schema : List dBColumnSchema) (tableName copyTarget : String),
      d.buildCopyFromS3Query schema tableName copyTarget =
        "COPY " ++ tableName ++ " FROM 's3://" ++ d.DataBucket ++ "/" ++ copyTarget ++
          "' IAM_ROLE 'arn:aws:iam::653026974230:role/data-loader-redshift-copy-" ++
          d.Env ++ "-us-west-2' FIXEDWIDTH '" ++
          sepJoin ", " (schema.map fun c => c.Name ++ ":" ++ c.Width) ++ "';") ∧
    (DataLoader.mk "" "testDB" "").buildCopyFromS3Query testSchema
        "testtable" "testtarget" =
      "COPY testtable FROM 's3://testDB/testtarget' IAM_ROLE 'arn:aws:iam::653026974230:role/data-loader-redshift-copy--us-west-2' FIXEDWIDTH 'testCol1:4, testCol2:42, testCol3:8, testCol4:4';" := by
  constructor
  · intro d schema tableName copyTarget
    rw [DataLoader.buildCopyFromS3Query, buildFixedWidthLoop_eq, joinPre_eq_sepJoin]
    rcases schema with _ | ⟨c, rest⟩
    · simp only [List.map_nil, if_pos rfl, sepJoin]
      simp only [String.append_assoc]
      rfl
    · rw [if_neg (by simp)]
      simp only [String.append_assoc]
      rfl
  · rfl

/-- C4: `buildCreateTableQuery` fails with the invalid-column-count error
exactly when the schema is empty or has more than 1600 columns — before
any per-column check, for arbitrary (even otherwise invalid) columns —
and the error message reports the actual count (0 for an empty schema,
1601 for a 1601-column schema). -/
theorem buildCreateTable_count_guard :
    (∀ (tableName : String) (schema : List dBColumnSchema),
      schema.length = 0 ∨ schema.length > 1600 →
        buildCreateTableQuery tableName schema =
          .error (.invalidSchema schema.length)) ∧
    (∀ (tableName : String) (schema : List dBColumnSchema),
      1 ≤ schema.length → schema.length ≤ 1600 →
        buildCreateTableQuery tableName schema ≠
          .error (.invalidSchema schema.length)) ∧
    (GoError.invalidSchema 0).message =
      "invalid number of columns defined in expectedSchema: 0" ∧
    (GoError.invalidSchema 1601).message =
      "invalid number of columns defined in expectedSchema: 1601" := by
  refine ⟨?_, ?_, by rfl, by rfl⟩
  · intro tableName schema h
    rw [buildCreateTableQuery]
    show (if (schema.length = 0 || schema.length > 1600) = true then _ else _) = _
    rw [if_pos (by simp only [Bool.or_eq_true, decide_eq_true_eq]; omega)]
  · intro tableName schema h1 h2 hcontra
    rw [buildCreateTableQuery] at hcontra
    rw [show (if (schema.length = 0 || schema.length > 1600) = true
          then (Except.error (GoError.invalidSchema schema.length) : Except GoError String)
          else buildCreateTableLoop schema [] ("CREATE TABLE " ++ tableName ++ "(") "")
        = buildCreateTableLoop schema [] ("CREATE TABLE " ++ tableName ++ "(") ""
      from if_neg (by simp only [Bool.or_eq_true, decide_eq_true_eq]; omega)] at hcontra
    exact buildCreateTableLoop_no_invalidSchema schema [] _ "" schema.length hcontra

/-- Witness for C4: the count guard at the empty schema, at a
1601-column schema, and its absence at the in-range test schema. -/
theorem buildCreateTable_count_guard_witness :
    buildCreateTableQuery "t" ([] : List dBColumnSchema) = .error (.invalidSchema 0) ∧
    buildCreateTableQuery "t" (List.replicate 1601 ⟨"a", "1", "TEXT"⟩) =
      .error (.invalidSchema 1601) ∧
    buildCreateTableQuery "t" testSchema ≠ .error (.invalidSchema 4) := by
  refine ⟨?_, ?_, ?_⟩
  · simpa using buildCreateTable_count_guard.1 "t" [] (Or.inl rfl)
  · have h := buildCreateTable_count_guard.1 "t"
      (List.replicate 1601 ⟨"a", "1", "TEXT"⟩)
      (Or.inr (by rw [List.length_replicate]; omega))
    rwa [List.length_replicate] at h
  · simpa using buildCreateTable_count_guard.2.1 "t" testSchema (by decide) (by decide)

/-- C5 counterexample: a schema containing an exact duplicate pair whose
duplicate is preceded by a column with an unsupported type fails with the
unsupported-type error, not with the duplicate-column error the claim
requires for every schema containing a duplicate pair. -/
theorem duplicate_claim_counterexample :
    ¬ (([⟨"x", "1", "BAD"⟩, ⟨"y", "1", "TEXT"⟩, ⟨"y", "1", "TEXT"⟩] :
        List dBColumnSchema).map dBColumnSchema.Name).Nodup ∧
    buildCreateTableQuery "t"
        [⟨"x", "1", "BAD"⟩, ⟨"y", "1", "TEXT"⟩, ⟨"y", "1", "TEXT"⟩] =
      .error (.unsupportedType "BAD") ∧
    buildCreateTableQuery "t"
        [⟨"x", "1", "BAD"⟩, ⟨"y", "1", "TEXT"⟩, ⟨"y", "1", "TEXT"⟩] ≠
      .error (.duplicateColumn "y") := by
  refine ⟨by decide, by decide, by decide⟩

/-- C5 (amended): in a schema of at most 1600 columns, when a column's
name already occurred earlier and every column strictly before it is
valid with pairwise-distinct names, `buildCreateTableQuery` fails with
the duplicate-column error naming that column, wherever the duplicate
pair occurs; and names differing only in letter case are not duplicates. -/
theorem duplicate_name_error :
    (∀ (tableName : String) (xs ys : List dBColumnSchema) (c : dBColumnSchema),
      (xs ++ c :: ys).length ≤ 1600 →
      c.Name ∈ xs.map dBColumnSchema.Name →
      (xs.map dBColumnSchema.Name).Nodup →
      (∀ x ∈ xs, ValidColumn x) →
      buildCreateTableQuery tableName (xs ++ c :: ys) =
        .error (.duplicateColumn c.Name)) ∧
    buildCreateTableQuery "t"
        [⟨"testCol", "1", "INTEGER"⟩, ⟨"TESTCOL", "1", "INTEGER"⟩] =
      .ok "CREATE TABLE t( testCol INTEGER, TESTCOL INTEGER);" := by
  constructor
  · intro tableName xs ys c hlen hmem hnodup hvalid
    rw [buildCreateTableQuery]
    show (if ((xs ++ c :: ys).length = 0 || (xs ++ c :: ys).length > 1600) = true
      then _ else _) = _
    rw [if_neg (by
      simp only [Bool.or_eq_true, decide_eq_true_eq, List.length_append,
        List.length_cons] at hlen ⊢
      omega)]
    exact buildCreateTableLoop_dup xs c ys [] _ ""
      hvalid hnodup (fun x _ => List.not_mem_nil _) (Or.inr hmem)
  · decide

/-- Witness for C5 (amended) at the test suite's duplicate schema. -/
theorem duplicate_name_error_witness :
    buildCreateTableQuery "testTable"
        [⟨"testCol", "4", "TEXT"⟩, ⟨"testCol", "4", "TEXT"⟩] =
      .error (.duplicateColumn "testCol") := by
  have h := duplicate_name_error.1 "testTable"
    [⟨"testCol", "4", "TEXT"⟩] [] ⟨"testCol", "4", "TEXT"⟩
    (by decide) (by decide) (by decide)
    (fun x hx => by
      simp only [List.mem_cons, List.not_mem_nil, or_false] at hx
      subst hx
      exact Or.inl ⟨rfl, 4, rfl, by decide⟩)
  simpa using h

/-- C6: scanning columns in schema order with the first failure winning,
a column whose `DataType` is not TEXT, INTEGER or BOOLEAN makes
`buildCreateTableQuery` fail with the unsupported-type error naming that
type; for a TEXT column the `Width` is parsed by `strconv.Atoi`, a
non-numeric width propagates the numeric-parse error, a parsed width
above 256 yields the width-exceeded error, and width exactly 256
succeeds. -/
theorem per_column_type_and_width_checks :
    (∀ (tableName : String) (xs ys : List dBColumnSchema) (c : dBColumnSchema),
      (xs ++ c :: ys).length ≤ 1600 →
      (∀ x ∈ xs, ValidColumn x) →
      ((xs ++ [c]).map dBColumnSchema.Name).Nodup →
      ∀ e : GoError, renderDataType c = .error e →
        buildCreateTableQuery tableName (xs ++ c :: ys) = .error e) ∧
    (∀ c : dBColumnSchema, c.DataType ≠ "TEXT" → c.DataType ≠ "INTEGER" →
      c.DataType ≠ "BOOLEAN" →
      renderDataType c = .error (.unsupportedType c.DataType)) ∧
    (∀ c : dBColumnSchema, c.DataType = "TEXT" →
      ∀ e : GoError, go_Atoi c.Width = .error e → renderDataType c = .error e) ∧
    (∀ c : dBColumnSchema, c.DataType = "TEXT" →
      ∀ v : Int, go_Atoi c.Width = .ok v → 256 < v →
        renderDataType c = .error (.widthExceeded c.Width)) ∧
    (∀ c : dBColumnSchema, c.DataType = "TEXT" → c.Width = "256" →
      renderDataType c = .ok "VARCHAR(256)") := by
  refine ⟨?_, ?_, ?_, ?_, ?_⟩
  · intro tableName xs ys c hlen hvalid hnodup e hrender
    rw [buildCreateTableQuery]
    show (if ((xs ++ c :: ys).length = 0 || (xs ++ c :: ys).length > 1600) = true
      then _ else _) = _
    rw [if_neg (by
      simp only [Bool.or_eq_true, decide_eq_true_eq, List.length_append,
        List.length_cons] at hlen ⊢
      omega)]
    rw [List.map_append, List.map_cons, List.map_nil, List.nodup_middle,
      List.append_nil, List.nodup_cons] at hnodup
    exact buildCreateTableLoop_render_error xs c ys [] _ "" e
      hvalid hnodup.2 (fun x _ => List.not_mem_nil _)
      (List.not_mem_nil _) hnodup.1 hrender
  · intro c h1 h2 h3
    unfold renderDataType
    split
    · next htype => exact absurd htype h1
    · next htype => exact absurd htype h2
    · next htype => exact absurd htype h3
    · rfl
  · intro c htype e hatoi
    simp [renderDataType, htype, hatoi]
  · intro c htype v hatoi hgt
    simp [renderDataType, htype, hatoi, show ¬ v ≤ 256 by omega]
  · intro c htype hwidth
    simp only [renderDataType, htype, hwidth]
    decide

/-- Witness for C6: each per-column failure demonstrated at the test
suite's one-column schemas, and the width-256 success. -/
theorem per_column_type_and_width_checks_witness :
    buildCreateTableQuery "testTable" [⟨"testCol", "4", "BAD_TYPE"⟩] =
      .error (.unsupportedType "BAD_TYPE") ∧
    buildCreateTableQuery "testTable" [⟨"testCol", "a", "TEXT"⟩] =
      .error (.atoiInvalid "a") ∧
    buildCreateTableQuery "testTable" [⟨"testCol", "257", "TEXT"⟩] =
      .error (.widthExceeded "257") ∧
    renderDataType ⟨"testCol", "256", "TEXT"⟩ = .ok "VARCHAR(256)" := by
  have hone : ∀ x ∈ ([] : List dBColumnSchema), ValidColumn x :=
    fun x hx => absurd hx (List.not_mem_nil _)
  refine ⟨?_, ?_, ?_,
    per_column_type_and_width_checks.2.2.2.2 ⟨"testCol", "256", "TEXT"⟩ rfl rfl⟩
  · have h := per_column_type_and_width_checks.1 "testTable" [] []
      ⟨"testCol", "4", "BAD_TYPE"⟩ (by decide) hone (by decide)
      (.unsupportedType "BAD_TYPE")
      (per_column_type_and_width_checks.2.1 ⟨"testCol", "4", "BAD_TYPE"⟩
        (by decide) (by decide) (by decide))
    simpa using h
  · have h := per_column_type_and_width_checks.1 "testTable" [] []
      ⟨"testCol", "a", "TEXT"⟩ (by decide) hone (by decide)
      (.atoiInvalid "a")
      (per_column_type_and_width_checks.2.2.1 ⟨"testCol", "a", "TEXT"⟩ rfl
        (.atoiInvalid "a") (by decide))
    simpa using h
  · have h := per_column_type_and_width_checks.1 "testTable" [] []
      ⟨"testCol", "257", "TEXT"⟩ (by decide) hone (by decide)
      (.widthExceeded "257")
      (per_column_type_and_width_checks.2.2.2.1 ⟨"testCol", "257", "TEXT"⟩ rfl
        257 (by decide) (by decide))
    simpa using h

/-- C10: the TEXT width check has no lower bound — every TEXT column
whose width parses to an integer at most 256 (zero and negatives
included) renders as `VARCHAR(<Width>)` verbatim, and the width check
fails exactly when the parsed width exceeds 256. -/
theorem text_width_upper_bound_only :
    (∀ c : dBColumnSchema, c.DataType = "TEXT" →
      (∀ v : Int, go_Atoi c.Width = .ok v → v ≤ 256 →
        renderDataType c = .ok ("VARCHAR(" ++ c.Width ++ ")")) ∧
      (renderDataType c = .error (.widthExceeded c.Width) ↔
        ∃ v : Int, go_Atoi c.Width = .ok v ∧ 256 < v)) ∧
    buildCreateTableQuery "t" [⟨"a", "0", "TEXT"⟩, ⟨"b", "-3", "TEXT"⟩] =
      .ok "CREATE TABLE t( a VARCHAR(0), b VARCHAR(-3));" := by
  constructor
  · intro c htype
    constructor
    · intro v hatoi hle
      simp [renderDataType, htype, hatoi, hle]
    · constructor
      · intro h
        rw [renderDataType] at h
        simp only [htype] at h
        rcases hA : go_Atoi c.Width with e | v
        · rw [hA] at h
          rcases go_Atoi_error_shape c.Width e hA with h1 | h1 <;>
            (subst h1; exact absurd (Except.error.inj h) (by simp))
        · rw [hA] at h
          dsimp only at h
          split at h
          · next hcond => exact ⟨v, rfl, by simpa using hcond⟩
          · exact absurd h (by simp)
      · rintro ⟨v, hatoi, hgt⟩
        simp [renderDataType, htype, hatoi, show ¬ v ≤ 256 by omega]
  · decide

/-- Witness for C10: zero and negative widths render verbatim, width 257
is rejected through the characterisation. -/
theorem text_width_upper_bound_only_witness :
    renderDataType ⟨"a", "-3", "TEXT"⟩ = .ok "VARCHAR(-3)" ∧
    renderDataType ⟨"a", "0", "TEXT"⟩ = .ok "VARCHAR(0)" ∧
    renderDataType ⟨"a", "257", "TEXT"⟩ = .error (.widthExceeded "257") := by
  refine ⟨?_, ?_, ?_⟩
  · have h := (text_width_upper_bound_only.1 ⟨"a", "-3", "TEXT"⟩ rfl).1
      (-3) (by decide) (by decide)
    simpa using h
  · have h := (text_width_upper_bound_only.1 ⟨"a", "0", "TEXT"⟩ rfl).1
      0 (by decide) (by decide)
    simpa using h
  · exact (text_width_upper_bound_only.1 ⟨"a", "257", "TEXT"⟩ rfl).2.mpr
      ⟨257, by decide, by decide⟩

/-- C7: for every input the CSV layer parses into rows of exactly three
fields, `marshalTableSchema` discards the header row and maps each
remaining row, in original order, to the column whose `Name`, `Width`
and `DataType` are the row's first, second and third fields; on the
spec's example body it yields exactly the three listed columns. -/
theorem marshal_three_field_rows :
    (∀ (rawSchema : String) (lines : List (List String)),
      csvReadAll rawSchema = .ok lines →
      (∀ l ∈ lines, l.length = 3) →
      marshalTableSchema rawSchema = some (.ok ((lines.drop 1).map mkCol))) ∧
    marshalTableSchema testCSV =
      some (.ok [⟨"name", "10", "TEXT"⟩, ⟨"valid", "1", "BOOLEAN"⟩,
        ⟨"count", "3", "INTEGER"⟩]) := by
  constructor
  · intro rawSchema lines hcsv hlen
    rw [marshalTableSchema, hcsv]
    dsimp only
    rw [mapM_marshalRow (lines.drop 1)
      (fun l hl => hlen l (List.drop_subset 1 lines hl))]
  · decide

/-- Witness for C7 at the spec's example CSV body. -/
theorem marshal_three_field_rows_witness :
    marshalTableSchema testCSV =
      some (.ok ((([["column name", "width", "datatype"], ["name", "10", "TEXT"],
        ["valid", "1", "BOOLEAN"], ["count", "3", "INTEGER"]] :
          List (List String)).drop 1).map mkCol)) :=
  marshal_three_field_rows.1 testCSV
    [["column name", "width", "datatype"], ["name", "10", "TEXT"],
     ["valid", "1", "BOOLEAN"], ["count", "3", "INTEGER"]]
    (by decide) (by decide)

/-- C8 (code bug): on a structurally consistent CSV whose rows have only
two fields the CSV layer succeeds without a format error, and the body
row's third-field access `line[2]` is out of range, so
`marshalTableSchema` panics (modelled as `none`) instead of returning a
column list or an error. -/
theorem marshal_short_rows_panic :
    csvReadAll "column name,width\nfoo,3\n" =
      .ok [["column name", "width"], ["foo", "3"]] ∧
    marshalRow ["foo", "3"] = none ∧
    marshalTableSchema "column name,width\nfoo,3\n" = none := by
  refine ⟨by decide, by decide, by decide⟩

/-- C3: in every run that reaches the table-existence check, when the
check returns true no create-table statement is built or executed and
the copy statement is executed exactly once; when it returns false the
DDL is built and executed once before the single copy execution (the
full call trace is pinned in each case). -/
theorem orchestrator_existence_branching
    (env : DBEnv) (d : DataLoader) (fileName rawSchema : String)
    (schema : List dBColumnSchema)
    (hfetch : env.fetchSchemaResult = .ok rawSchema)
    (hmarshal : marshalTableSchema rawSchema = some (.ok schema)) :
    (env.tableExistsResult = .ok true →
      LoadDataFileToRedshift env d fileName =
        (some (env.execResult
            (d.buildCopyFromS3Query schema (targetNameOf fileName) fileName)),
          [.fetchSchema d.SchemaBucket (targetNameOf fileName ++ ".csv"),
           .existsQuery (targetNameOf fileName),
           .exec (d.buildCopyFromS3Query schema (targetNameOf fileName) fileName)])) ∧
    (∀ q : String, env.tableExistsResult = .ok false →
      buildCreateTableQuery (targetNameOf fileName) schema = .ok q →
      env.execResult q = .ok () →
      LoadDataFileToRedshift env d fileName =
        (some (env.execResult
            (d.buildCopyFromS3Query schema (targetNameOf fileName) fileName)),
          [.fetchSchema d.SchemaBucket (targetNameOf fileName ++ ".csv"),
           .existsQuery (targetNameOf fileName),
           .exec q,
           .exec (d.buildCopyFromS3Query schema (targetNameOf fileName) fileName)])) := by
  constructor
  · intro hexists
    simp [LoadDataFileToRedshift, fetchTableSchema, checkIfRedShiftTableExists,
      executeRedShiftCopyCommand, hfetch, hmarshal, hexists]
  · intro q hexists hbuild hexec
    simp [LoadDataFileToRedshift, fetchTableSchema, checkIfRedShiftTableExists,
      createTable, executeRedShiftCopyCommand, hfetch, hmarshal, hexists,
      hbuild, hexec]

set_option maxRecDepth 8192 in
/-- Witness for C3: both branches run on a concrete environment; the
exists branch performs exactly one statement execution (the copy) and
the absent branch executes the DDL then the copy. -/
theorem orchestrator_existence_branching_witness :
    LoadDataFileToRedshift envTableExists dTest "testformat1_2015-06-28.txt" =
      (some (.ok ()),
        [.fetchSchema "testSB" "testformat1.csv",
         .existsQuery "testformat1",
         .exec "COPY testformat1 FROM 's3://testDB/testformat1_2015-06-28.txt' IAM_ROLE 'arn:aws:iam::653026974230:role/data-loader-redshift-copy-test-us-west-2' FIXEDWIDTH 'name:10, valid:1, count:3';"]) ∧
    LoadDataFileToRedshift envTableAbsent dTest "testformat1_2015-06-28.txt" =
      (some (.ok ()),
        [.fetchSchema "testSB" "testformat1.csv",
         .existsQuery "testformat1",
         .exec "CREATE TABLE testformat1( name VARCHAR(10), valid BOOLEAN, count INTEGER);",
         .exec "COPY testformat1 FROM 's3://testDB/testformat1_2015-06-28.txt' IAM_ROLE 'arn:aws:iam::653026974230:role/data-loader-redshift-copy-test-us-west-2' FIXEDWIDTH 'name:10, valid:1, count:3';"]) := by
  constructor
  · have h := (orchestrator_existence_branching envTableExists dTest
      "testformat1_2015-06-28.txt" testCSV testCols rfl (by decide)).1 rfl
    rw [h]
    decide
  · have h := (orchestrator_existence_branching envTableAbsent dTest
      "testformat1_2015-06-28.txt" testCSV testCols rfl (by decide)).2
      "CREATE TABLE testformat1( name VARCHAR(10), valid BOOLEAN, count INTEGER);"
      rfl (by decide) rfl
    rw [h]
    decide

/-- C9: a failure at any step — schema fetch, parse, existence check,
DDL build, DDL execution, copy execution — aborts all remaining steps
and the run returns that very error unchanged; the pinned traces show
that no statement is executed after a failed earlier step and nothing is
retried within the run. -/
theorem orchestrator_error_propagation
    (env : DBEnv) (d : DataLoader) (fileName : String) :
    (∀ e : GoError, env.fetchSchemaResult = .error e →
      LoadDataFileToRedshift env d fileName =
        (some (.error e),
          [.fetchSchema d.SchemaBucket (targetNameOf fileName ++ ".csv")])) ∧
    (∀ (raw : String) (e : GoError),
      env.fetchSchemaResult = .ok raw →
      marshalTableSchema raw = some (.error e) →
      LoadDataFileToRedshift env d fileName =
        (some (.error e),
          [.fetchSchema d.SchemaBucket (targetNameOf fileName ++ ".csv")])) ∧
    (∀ (raw : String) (schema : List dBColumnSchema) (e : GoError),
      env.fetchSchemaResult = .ok raw →
      marshalTableSchema raw = some (.ok schema) →
      env.tableExistsResult = .error e →
      LoadDataFileToRedshift env d fileName =
        (some (.error e),
          [.fetchSchema d.SchemaBucket (targetNameOf fileName ++ ".csv"),
           .existsQuery (targetNameOf fileName)])) ∧
    (∀ (raw : String) (schema : List dBColumnSchema) (e : GoError),
      env.fetchSchemaResult = .ok raw →
      marshalTableSchema raw = some (.ok schema) →
      env.tableExistsResult = .ok false →
      buildCreateTableQuery (targetNameOf fileName) schema = .error e →
      LoadDataFileToRedshift env d fileName =
        (some (.error e),
          [.fetchSchema d.SchemaBucket (targetNameOf fileName ++ ".csv"),
           .existsQuery (targetNameOf fileName)])) ∧
    (∀ (raw : String) (schema : List dBColumnSchema) (q : String) (e : GoError),
      env.fetchSchemaResult = .ok raw →
      marshalTableSchema raw = some (.ok schema) →
      env.tableExistsResult = .ok false →
      buildCreateTableQuery (targetNameOf fileName) schema = .ok q →
      env.execResult q = .error e →
      LoadDataFileToRedshift env d fileName =
        (some (.error e),
          [.fetchSchema d.SchemaBucket (targetNameOf fileName ++ ".csv"),
           .existsQuery (targetNameOf fileName),
           .exec q])) ∧
    (∀ (raw : String) (schema : List dBColumnSchema) (e : GoError),
      env.fetchSchemaResult = .ok raw →
      marshalTableSchema raw = some (.ok schema) →
      env.tableExistsResult = .ok true →
      env.execResult
          (d.buildCopyFromS3Query schema (targetNameOf fileName) fileName) =
        .error e →
      LoadDataFileToRedshift env d fileName =
        (some (.error e),
          [.fetchSchema d.SchemaBucket (targetNameOf fileName ++ ".csv"),
           .existsQuery (targetNameOf fileName),
           .exec (d.buildCopyFromS3Query schema (targetNameOf fileName) fileName)])) ∧
    (∀ (raw : String) (schema : List dBColumnSchema) (q : String) (e : GoError),
      env.fetchSchemaResult = .ok raw →
      marshalTableSchema raw = some (.ok schema) →
      env.tableExistsResult = .ok false →
      buildCreateTableQuery (targetNameOf fileName) schema = .ok q →
      env.execResult q = .ok () →
      env.execResult
          (d.buildCopyFromS3Query schema (targetNameOf fileName) fileName) =
        .error e →
      LoadDataFileToRedshift env d fileName =
        (some (.error e),
          [.fetchSchema d.SchemaBucket (targetNameOf fileName ++ ".csv"),
           .existsQuery (targetNameOf fileName),
           .exec q,
           .exec (d.buildCopyFromS3Query schema (targetNameOf fileName) fileName)])) := by
  refine ⟨?_, ?_, ?_, ?_, ?_, ?_, ?_⟩
  · intro e hfetch
    simp [LoadDataFileToRedshift, fetchTableSchema, hfetch]
  · intro raw e hfetch hmarshal
    simp [LoadDataFileToRedshift, fetchTableSchema, hfetch, hmarshal]
  · intro raw schema e hfetch hmarshal hexists
    simp [LoadDataFileToRedshift, fetchTableSchema, checkIfRedShiftTableExists,
      hfetch, hmarshal, hexists]
  · intro raw schema e hfetch hmarshal hexists hbuild
    simp [LoadDataFileToRedshift, fetchTableSchema, checkIfRedShiftTableExists,
      createTable, hfetch, hmarshal, hexists, hbuild]
  · intro raw schema q e hfetch hmarshal hexists hbuild hexec
    simp [LoadDataFileToRedshift, fetchTableSchema, checkIfRedShiftTableExists,
      createTable, hfetch, hmarshal, hexists, hbuild, hexec]
  · intro raw schema e hfetch hmarshal hexists hexec
    simp [LoadDataFileToRedshift, fetchTableSchema, checkIfRedShiftTableExists,
      executeRedShiftCopyCommand, hfetch, hmarshal, hexists, hexec]
  · intro raw schema q e hfetch hmarshal hexists hbuild hexecq hexec
    simp [LoadDataFileToRedshift, fetchTableSchema, checkIfRedShiftTableExists,
      createTable, executeRedShiftCopyCommand, hfetch, hmarshal, hexists,
      hbuild, hexecq, hexec]

set_option maxRecDepth 8192 in
/-- Witness for C9: each failing step demonstrated on a concrete
environment, with the returned error and the exact truncated trace. -/
theorem orchestrator_error_propagation_witness :
    LoadDataFileToRedshift envFetchFails dTest "testformat1_2015-06-28.txt" =
      (some (.error (.external "storage failure")),
        [.fetchSchema "testSB" "testformat1.csv"]) ∧
    LoadDataFileToRedshift envBadSchema dTest "testformat1_2015-06-28.txt" =
      (some (.error (.csvFieldCount 2)),
        [.fetchSchema "testSB" "testformat1.csv"]) ∧
    LoadDataFileToRedshift envProbeFails dTest "testformat1_2015-06-28.txt" =
      (some (.error (.external "query failure")),
        [.fetchSchema "testSB" "testformat1.csv", .existsQuery "testformat1"]) ∧
    LoadDataFileToRedshift envBadType dTest "testformat1_2015-06-28.txt" =
      (some (.error (.unsupportedType "BAD_TYPE")),
        [.fetchSchema "testSB" "testformat1.csv", .existsQuery "testformat1"]) ∧
    LoadDataFileToRedshift envExecFails dTest "testformat1_2015-06-28.txt" =
      (some (.error (.external "exec failure")),
        [.fetchSchema "testSB" "testformat1.csv", .existsQuery "testformat1",
         .exec "CREATE TABLE testformat1( name VARCHAR(10), valid BOOLEAN, count INTEGER);"]) ∧
    LoadDataFileToRedshift envCopyFailsPresent dTest "testformat1_2015-06-28.txt" =
      (some (.error (.external "copy failure")),
        [.fetchSchema "testSB" "testformat1.csv", .existsQuery "testformat1",
         .exec "COPY testformat1 FROM 's3://testDB/testformat1_2015-06-28.txt' IAM_ROLE 'arn:aws:iam::653026974230:role/data-loader-redshift-copy-test-us-west-2' FIXEDWIDTH 'name:10, valid:1, count:3';"]) ∧
    LoadDataFileToRedshift envCopyFailsAbsent dTest "testformat1_2015-06-28.txt" =
      (some (.error (.external "copy failure")),
        [.fetchSchema "testSB" "testformat1.csv", .existsQuery "testformat1",
         .exec "CREATE TABLE testformat1( name VARCHAR(10), valid BOOLEAN, count INTEGER);",
         .exec "COPY testformat1 FROM 's3://testDB/testformat1_2015-06-28.txt' IAM_ROLE 'arn:aws:iam::653026974230:role/data-loader-redshift-copy-test-us-west-2' FIXEDWIDTH 'name:10, valid:1, count:3';"]) := by
  refine ⟨?_, ?_, ?_, ?_, ?_, ?_, ?_⟩
  · have h := (orchestrator_error_propagation envFetchFails dTest
      "testformat1_2015-06-28.txt").1 (.external "storage failure") rfl
    rw [h]
    decide
  · have h := (orchestrator_error_propagation envBadSchema dTest
      "testformat1_2015-06-28.txt").2.1 "h1,h2\na,b,c\n" (.csvFieldCount 2)
      rfl (by decide)
    rw [h]
    decide
  · have h := (orchestrator_error_propagation envProbeFails dTest
      "testformat1_2015-06-28.txt").2.2.1 testCSV testCols
      (.external "query failure") rfl (by decide) rfl
    rw [h]
    decide
  · have h := (orchestrator_error_propagation envBadType dTest
      "testformat1_2015-06-28.txt").2.2.2.1 badTypeCSV
      [⟨"name", "10", "BAD_TYPE"⟩] (.unsupportedType "BAD_TYPE")
      rfl (by decide) rfl (by decide)
    rw [h]
    decide
  · have h := (orchestrator_error_propagation envExecFails dTest
      "testformat1_2015-06-28.txt").2.2.2.2.1 testCSV testCols
      "CREATE TABLE testformat1( name VARCHAR(10), valid BOOLEAN, count INTEGER);"
      (.external "exec failure") rfl (by decide) rfl (by decide) rfl
    rw [h]
    decide
  · have h := (orchestrator_error_propagation envCopyFailsPresent dTest
      "testformat1_2015-06-28.txt").2.2.2.2.2.1 testCSV testCols
      (.external "copy failure") rfl (by decide) rfl (by decide)
    rw [h]
    decide
  · have h := (orchestrator_error_propagation envCopyFailsAbsent dTest
      "testformat1_2015-06-28.txt").2.2.2.2.2.2 testCSV testCols
      "CREATE TABLE testformat1( name VARCHAR(10), valid BOOLEAN, count INTEGER);"
      (.external "copy failure") rfl (by decide) rfl (by decide) (by decide)
      (by decide)
    rw [h]
    decide

end DataLoaderSpec
